import Mathlib

/-!
Shallow embedding of the dialogue-orchestration core of the weather-aware
calendar scheduling agent (src/main.py) in Lean 4, together with proofs of
the specification claims about it.

Modelling conventions:
* Python floats (confidence scores, temperatures, timestamps) are embedded
  as exact rationals; the code only compares them against fixed constants.
  Non-integral constants (0.1, 0.5, 0.7, 0.8, 0.9) are written with `mkRat`
  (e.g. `mkRat 1 2` for 0.5) rather than `/`, because `mkRat` evaluates
  under kernel reduction while Mathlib's rational division does not.
* ISO datetime strings are represented by their parsed calendar components
  (`PyDateTime`), identifying a string with its `datetime.fromisoformat`
  value; the code parses every such string before using it.
* The external collaborators (intent-extraction LLM, weather provider,
  calendar writer) are oracles: arbitrary total functions, as the source
  wraps each call so that it never raises (a fallback value is substituted).
* Numeric-to-string rendering inside response messages uses `toString`.
-/

namespace WeatherAgent

/-- Calendar components of a Python `datetime` value (the parse of an ISO
datetime string, `datetime.fromisoformat`). -/
structure PyDateTime where
  year : ℕ
  month : ℕ
  day : ℕ
  hour : ℕ
  minute : ℕ
  second : ℕ
  microsecond : ℕ
deriving DecidableEq

/-- Python `datetime.date()`: the calendar-date triple of a datetime. -/
def pyDate (dt : PyDateTime) : ℕ × ℕ × ℕ := (dt.year, dt.month, dt.day)

/-- Structured intent extracted from a user message (class `IntentExtraction`
in src/main.py); `datetime` embeds the `datetime_str` field. -/
structure IntentExtraction where
  activity : String
  datetime : PyDateTime
  location : Option String
  confidence : ℚ
  is_weather_query : Bool
  has_specific_time : Bool
deriving DecidableEq

/-- Weather observation (class `WeatherData` in src/main.py). -/
structure WeatherData where
  temperature : ℚ
  description : String
  is_rainy : Bool
  humidity : ℤ
  feels_like : Option ℚ
deriving DecidableEq

/-- Per-turn workflow state (class `AgentState` in src/main.py). -/
structure AgentState where
  user_message : String
  telegram_chat_id : ℤ
  intent : Option IntentExtraction
  weather : Option WeatherData
  calendar_event_created : Bool
  response_message : String
  needs_clarification : Bool
deriving DecidableEq

/-- Python `location or "Singapore"`: the default location substitution,
falsy values (`None` and the empty string) fall back to `"Singapore"`. -/
def locationOrDefault (loc : Option String) : String :=
  match loc with
  | some s => if s = "" then "Singapore" else s
  | none => "Singapore"

/-- Python `str.title()` restricted to ASCII letters: the first letter of
every alphabetic run is uppercased, the rest lowercased. -/
def pyTitleAux : Bool → List Char → List Char
  | _, [] => []
  | prevAlpha, c :: cs =>
      let c' := if c.isAlpha then (if prevAlpha then c.toLower else c.toUpper) else c
      c' :: pyTitleAux c.isAlpha cs

/-- Python `str.title()` on a string. -/
def pyTitle (s : String) : String := ⟨pyTitleAux false s.data⟩

/-- Python `str.lower()` restricted to ASCII letters. -/
def pyLower (s : String) : String := ⟨s.data.map Char.toLower⟩

/-- Contiguous-substring test on character lists: `containsSeq pat s` is
true iff `pat` occurs inside `s` (Python's `pat in s` on strings). -/
def containsSeq (pat : List Char) : List Char → Bool
  | [] => pat.isEmpty
  | c :: rest => List.isPrefixOf pat (c :: rest) || containsSeq pat rest

/-- String form of `containsSeq`: Python's `pat in s`. -/
def strContains (s pat : String) : Bool := containsSeq pat.data s.data

/-- English month names for `strftime("%B")` (month 1 = January). -/
def monthName : ℕ → String
  | 1 => "January"
  | 2 => "February"
  | 3 => "March"
  | 4 => "April"
  | 5 => "May"
  | 6 => "June"
  | 7 => "July"
  | 8 => "August"
  | 9 => "September"
  | 10 => "October"
  | 11 => "November"
  | 12 => "December"
  | _ => ""

/-- Zero-padded two-digit rendering, as in `strftime` `%d`, `%I`, `%M`. -/
def pad2 (n : ℕ) : String := if n < 10 then "0" ++ toString n else toString n

/-- Left-to-right non-overlapping replacement of `pat` by `rep` (Python
`str.replace`), with an explicit fuel argument (one unit per input
character) so the recursion is structural; `replaceSeq` instantiates the
fuel with the input length, which always suffices. -/
def replaceSeqFuel (pat rep : List Char) : ℕ → List Char → List Char
  | _, [] => []
  | 0, l => l
  | fuel + 1, c :: rest =>
      if List.isPrefixOf pat (c :: rest) then
        rep ++ replaceSeqFuel pat rep fuel (List.drop (pat.length - 1) rest)
      else c :: replaceSeqFuel pat rep fuel rest

/-- Python `s.replace(pat, rep)` on strings. -/
def pyReplace (s pat rep : String) : String :=
  ⟨replaceSeqFuel pat.data rep.data s.data.length s.data⟩

/-- Function `format_datetime_human_readable` of src/main.py: date-only
rendering when hour and minute are both zero, otherwise a 12-hour clock
rendering with every occurrence of `" 0"` replaced by `" "` (the source's
leading-zero removal). -/
def format_datetime_human_readable (dt : PyDateTime) : String :=
  if dt.hour = 0 ∧ dt.minute = 0 then
    pad2 dt.day ++ " " ++ monthName dt.month ++ " " ++ toString dt.year
  else
    let hour12 := if dt.hour % 12 = 0 then 12 else dt.hour % 12
    let ampm := if dt.hour < 12 then "AM" else "PM"
    pyReplace
      (pad2 dt.day ++ " " ++ monthName dt.month ++ " " ++ toString dt.year ++ ", "
        ++ pad2 hour12 ++ ":" ++ pad2 dt.minute ++ " " ++ ampm)
      " 0" " "

/-- Routing outcomes of `should_check_weather` (the router after intent
extraction); constructor names follow the node names in src/main.py. -/
inductive Route where
  | check_weather
  | weather_query
  | request_time_clarification
  | request_clarification
  | casual_conversation
deriving DecidableEq

/-- Routing outcomes of `should_create_event` (the router after the weather
check). -/
inductive PostWeatherRoute where
  | create_event
  | request_clarification
deriving DecidableEq

/-- Router `should_check_weather` of src/main.py (lines 503-520). -/
def should_check_weather (state : AgentState) : Route :=
  match state.intent with
  | some intent =>
      if intent.activity = "casual conversation" ∧ intent.confidence ≤ mkRat 1 10 then
        Route.casual_conversation
      else if intent.confidence > mkRat 1 2 ∧ intent.activity ≠ "unknown"
          ∧ intent.activity ≠ "casual conversation" then
        if intent.is_weather_query then Route.weather_query
        else if intent.has_specific_time = false then Route.request_time_clarification
        else Route.check_weather
      else
        Route.request_clarification
  | none => Route.request_clarification

/-- Router `should_create_event` of src/main.py (lines 522-527): create the
event iff a weather value is present and it is not rainy. -/
def should_create_event (state : AgentState) : PostWeatherRoute :=
  match state.weather with
  | some w => if w.is_rainy then PostWeatherRoute.request_clarification
              else PostWeatherRoute.create_event
  | none => PostWeatherRoute.request_clarification

/-- Oracles for the three external collaborators. Each call site in the
source absorbs failures into a fallback value, so each collaborator is a
total function: `extract` (GeminiClient.extract_intent, which returns the
synthetic zero-confidence "unknown" intent on failure), `forecast`
(WeatherClient.get_weather_forecast, which returns the fixed non-rainy
fallback observation on failure), `createEvent`
(GoogleCalendarClient.create_event, a success flag). -/
structure Collaborators where
  extract : String → IntentExtraction
  forecast : PyDateTime → String → WeatherData
  createEvent : IntentExtraction → Bool

/-- Node `extract_intent_node` of src/main.py: calls the extraction
collaborator on the raw message and overwrites the state's intent. -/
def extract_intent_node (extract : String → IntentExtraction) (state : AgentState) : AgentState :=
  { state with intent := some (extract state.user_message) }

/-- Node `check_weather_node` of src/main.py: with no intent, clears the
weather; otherwise queries the forecast collaborator at the intent's
datetime and defaulted location. -/
def check_weather_node (forecast : PyDateTime → String → WeatherData) (state : AgentState) : AgentState :=
  match state.intent with
  | none => { state with weather := none }
  | some intent =>
      { state with
        weather := some (forecast intent.datetime (locationOrDefault intent.location)) }

/-- Advisory line chosen when the observation is rainy. -/
def umbrellaAdvice : String := "\n🌧️ **Advice**: It\x27s rainy - bring an umbrella!"

/-- Advisory line chosen when it is not rainy and warmer than 30°C. -/
def heatAdvice : String := "\n☀️ **Advice**: It\x27s quite hot - stay hydrated!"

/-- Advisory line chosen when it is not rainy and cooler than 20°C. -/
def coldAdvice : String := "\n🧥 **Advice**: It\x27s cool - consider bringing a jacket!"

/-- Neutral advisory line for the remaining temperatures. -/
def neutralAdvice : String := "\n✨ **Advice**: Great weather for outdoor activities!"

/-- Advisory selection of `weather_query_node` (src/main.py lines 421-429):
rainy first, then hot (strictly above 30), then cold (strictly below 20),
else the neutral advisory. -/
def weatherAdvice (w : WeatherData) : String :=
  if w.is_rainy then umbrellaAdvice
  else if w.temperature > 30 then heatAdvice
  else if w.temperature < 20 then coldAdvice
  else neutralAdvice

/-- Python truthiness test `if weather.feels_like:` — the feels-like clause
is appended only when the field is neither `None` nor `0.0`. -/
def feelsLikePart (w : WeatherData) : String :=
  match w.feels_like with
  | some f => if f = 0 then "" else " (feels like " ++ toString f ++ "°C)"
  | none => ""

/-- Informational body of the weather-query response (src/main.py lines
414-419): location header, temperature line, conditions line, humidity
line. -/
def weatherQueryBody (location : String) (w : WeatherData) : String :=
  "🌤️ **Weather for " ++ pyTitle location ++ "**\n\n🌡️ "
    ++ "**Temperature**: " ++ toString w.temperature ++ "°C" ++ feelsLikePart w
    ++ "\n☁️ " ++ "**Conditions**: " ++ pyTitle w.description ++ "\n💧 "
    ++ "**Humidity**: " ++ toString w.humidity ++ "%\n"

/-- Node `weather_query_node` of src/main.py (lines 395-433): queries the
forecast collaborator and renders the informational body followed by the
single advisory line. -/
def weather_query_node (forecast : PyDateTime → String → WeatherData) (state : AgentState) : AgentState :=
  match state.intent with
  | none =>
      { state with
        response_message := "I couldn\x27t understand your weather query. Please try again." }
  | some intent =>
      let location := locationOrDefault intent.location
      let weather := forecast intent.datetime location
      { state with
        weather := some weather,
        response_message := weatherQueryBody location weather ++ weatherAdvice weather }

/-- Node `create_calendar_event_node` of src/main.py (lines 435-451): calls
the calendar collaborator and reports success or failure. The source
dereferences the intent unconditionally; the node is only reachable with an
intent present, and the no-intent branch is the identity. -/
def create_calendar_event_node (createEvent : IntentExtraction → Bool) (state : AgentState) : AgentState :=
  match state.intent with
  | none => state
  | some intent =>
      let success := createEvent intent
      if success then
        { state with
          calendar_event_created := true,
          response_message := "✅ Great! I\x27ve scheduled \x27" ++ intent.activity
            ++ "\x27 for " ++ format_datetime_human_readable intent.datetime
            ++ ". The weather looks good!" }
      else
        { state with
          calendar_event_created := false,
          response_message := "❌ Sorry, I couldn\x27t create the calendar event. Please try again." }

/-- Node `request_time_clarification_node` of src/main.py (lines 453-462):
asks for a time of day and marks the state as needing clarification. The
source dereferences the intent unconditionally; the node is only reachable
with an intent present. -/
def request_time_clarification_node (state : AgentState) : AgentState :=
  match state.intent with
  | none => { state with needs_clarification := true }
  | some intent =>
      { state with
        response_message := "⏰ I see you want to " ++ intent.activity ++ " on "
          ++ format_datetime_human_readable intent.datetime
          ++ ", but what time would you prefer?\n\nFor example:\n• \x273pm\x27\n• \x272:30 in the afternoon\x27\n• \x279 in the morning\x27\n• \x27around lunchtime\x27",
        needs_clarification := true }

/-- Greeting phrases matched by `casual_conversation_node`. -/
def casualGreetingSet : List String :=
  ["hello", "hi", "hey", "good morning", "good afternoon", "good evening"]

/-- How-are-you phrases matched by `casual_conversation_node`. -/
def casualQuestionSet : List String := ["how are you", "what\x27s up", "how\x27s it going"]

/-- Thanks phrases matched by `casual_conversation_node`. -/
def casualThanksSet : List String := ["thank", "thanks", "appreciate"]

/-- Python `any(word in msg for word in kws)`: some keyword of the set
occurs as a substring of the message. -/
def containsAnyKeyword (msg : String) (kws : List String) : Bool :=
  kws.any (fun kw => strContains msg kw)

/-- Canned greeting response of `casual_conversation_node`. -/
def casualGreetingResponse : String :=
  "Hello! 👋 I\x27m your AI scheduling assistant. I can help you:\n\n📅 **Schedule activities** - Just tell me what you want to do and when!\n🌤️ **Check weather** - Ask about weather for any location\n\n**Examples:**\n• \x27I want to go for a run tomorrow at 3pm\x27\n• \x27Schedule a meeting this Friday at 2pm\x27\n• \x27What\x27s the weather like tomorrow?\x27\n\nHow can I help you today?"

/-- Canned how-are-you response of `casual_conversation_node`. -/
def casualQuestionResponse : String :=
  "I\x27m doing great, thank you! 😊 I\x27m here and ready to help you schedule activities and check the weather. What would you like to plan today?"

/-- Canned thanks response of `casual_conversation_node`. -/
def casualThanksResponse : String :=
  "You\x27re very welcome! 😊 Feel free to ask me anytime if you need help scheduling activities or checking the weather!"

/-- Generic canned response of `casual_conversation_node`. -/
def casualGenericResponse : String :=
  "I\x27m your AI scheduling assistant! 🤖 I can help you schedule activities and check weather forecasts.\n\n**Try asking me:**\n• \x27Schedule a workout tomorrow at 6pm\x27\n• \x27What\x27s the weather like this weekend?\x27\n• \x27I want to have a picnic on Saturday\x27\n\nWhat would you like to plan?"

/-- Node `casual_conversation_node` of src/main.py (lines 464-481): keyword
match on the lower-cased raw message against fixed phrase sets, returning
one of four canned responses; `needs_clarification` is left unchanged. -/
def casual_conversation_node (state : AgentState) : AgentState :=
  let msg := pyLower state.user_message
  let resp :=
    if containsAnyKeyword msg casualGreetingSet then casualGreetingResponse
    else if containsAnyKeyword msg casualQuestionSet then casualQuestionResponse
    else if containsAnyKeyword msg casualThanksSet then casualThanksResponse
    else casualGenericResponse
  { state with response_message := resp }

/-- Generic please-clarify message of `request_clarification_node`. -/
def genericClarificationResponse : String :=
  "I\x27m not sure I understood what you\x27d like to do. Could you please be more specific?\n\n📅 **For scheduling:**\n• \x27I want to go for a run at 4pm this Saturday\x27\n• \x27Schedule a picnic tomorrow at 2pm\x27\n• \x27Plan a bike ride next Tuesday morning\x27\n\n🌤️ **For weather queries:**\n• \x27What\x27s the weather like tomorrow?\x27\n• \x27How\x27s the weather this Saturday 3pm?\x27"

/-- Node `request_clarification_node` of src/main.py (lines 483-497):
generic message when the intent is missing, low-confidence (≤ 0.5) or
"unknown", otherwise the rainy-weather three-choice message; always sets
`needs_clarification`. -/
def request_clarification_node (state : AgentState) : AgentState :=
  let resp :=
    match state.intent with
    | none => genericClarificationResponse
    | some intent =>
        if intent.confidence ≤ mkRat 1 2 ∨ intent.activity = "unknown" then
          genericClarificationResponse
        else
          let weather_desc := match state.weather with
            | some w => w.description
            | none => "rainy"
          "🌧️ The weather forecast shows " ++ weather_desc ++ " for your planned "
            ++ intent.activity ++ " on " ++ format_datetime_human_readable intent.datetime
            ++ ". Would you like to:\n\n1. Proceed anyway\n2. Reschedule to a different time\n3. Cancel the activity\n\nPlease let me know what you\x27d prefer!"
  { state with response_message := resp, needs_clarification := true }

/-- Workflow steps (the nodes of the LangGraph graph built by
`create_agent_workflow`). -/
inductive Step where
  | extract_intent
  | check_weather
  | weather_query
  | create_event
  | request_time_clarification
  | request_clarification
  | casual_conversation
deriving DecidableEq

/-- One full run of the workflow built by `create_agent_workflow`
(src/main.py lines 533-577): the entry point is `extract_intent`, then the
conditional edge `should_check_weather` routes to one of five nodes,
`check_weather` continues through `should_create_event`, and every other
node ends the run. Returns the final state together with the list of steps
executed, in order. -/
def runWorkflow (c : Collaborators) (state : AgentState) : AgentState × List Step :=
  match should_check_weather (extract_intent_node c.extract state) with
  | Route.check_weather =>
      match should_create_event
          (check_weather_node c.forecast (extract_intent_node c.extract state)) with
      | PostWeatherRoute.create_event =>
          (create_calendar_event_node c.createEvent
             (check_weather_node c.forecast (extract_intent_node c.extract state)),
           [Step.extract_intent, Step.check_weather, Step.create_event])
      | PostWeatherRoute.request_clarification =>
          (request_clarification_node
             (check_weather_node c.forecast (extract_intent_node c.extract state)),
           [Step.extract_intent, Step.check_weather, Step.request_clarification])
  | Route.weather_query =>
      (weather_query_node c.forecast (extract_intent_node c.extract state),
       [Step.extract_intent, Step.weather_query])
  | Route.request_time_clarification =>
      (request_time_clarification_node (extract_intent_node c.extract state),
       [Step.extract_intent, Step.request_time_clarification])
  | Route.request_clarification =>
      (request_clarification_node (extract_intent_node c.extract state),
       [Step.extract_intent, Step.request_clarification])
  | Route.casual_conversation =>
      (casual_conversation_node (extract_intent_node c.extract state),
       [Step.extract_intent, Step.casual_conversation])

/-- Terminal step of a run: the last node executed. -/
def terminalStep (trace : List Step) : Option Step := trace.getLast?

/-- Fresh per-turn state constructed by `TelegramBot.handle_message`
(src/main.py lines 651-659). -/
def initialState (msg : String) (chatId : ℤ) : AgentState :=
  { user_message := msg
    telegram_chat_id := chatId
    intent := none
    weather := none
    calendar_event_created := false
    response_message := ""
    needs_clarification := false }

/-- Workflow run on a fresh turn, as `handle_message` performs it. -/
def freshRun (c : Collaborators) (msg : String) (chatId : ℤ) : AgentState × List Step :=
  runWorkflow c (initialState msg chatId)

/-- Kind of pending clarification (the `waiting_for` field of a stored
conversation context: `"time_clarification"` or `"weather_clarification"`). -/
inductive PendingKind where
  | time
  | weather
deriving DecidableEq

/-- Pending clarification entry stored in `TelegramBot.conversation_context`:
original intent, optional weather (present only for the weather kind), the
kind, and the `time.time()` creation timestamp. -/
structure PendingClarification where
  original_intent : IntentExtraction
  weather : Option WeatherData
  kind : PendingKind
  timestamp : ℚ
deriving DecidableEq

/-- Python truthiness of `final_state["weather"] and final_state["weather"].is_rainy`. -/
def weatherIsRainy (w : Option WeatherData) : Bool :=
  match w with
  | some w => w.is_rainy
  | none => false

/-- Context write policy of `TelegramBot.handle_message` after a workflow
run (src/main.py lines 665-683): when the final state needs clarification
and carries an intent, store a TIME entry if `confidence > 0.5` and no
specific time was given, else a WEATHER entry if `confidence > 0.5` and the
final weather is present and rainy; otherwise store nothing. -/
def contextWrite (now : ℚ) (final : AgentState) : Option PendingClarification :=
  if final.needs_clarification then
    match final.intent with
    | some intent =>
        if intent.confidence > mkRat 1 2 ∧ intent.has_specific_time = false then
          some { original_intent := intent, weather := none, kind := PendingKind.time,
                 timestamp := now }
        else if intent.confidence > mkRat 1 2 ∧ weatherIsRainy final.weather = true then
          some { original_intent := intent, weather := final.weather,
                 kind := PendingKind.weather, timestamp := now }
        else none
    | none => none
  else none

/-- Method `TelegramBot.cleanup_old_contexts` (src/main.py lines 692-703):
delete every stored context whose age `current_time - timestamp` exceeds
600 seconds, keep the rest. The store is an association list keyed by chat
id. -/
def cleanup_old_contexts (current_time : ℚ)
    (ctxs : List (ℤ × PendingClarification)) : List (ℤ × PendingClarification) :=
  ctxs.filter (fun e => !(decide (current_time - e.2.timestamp > 600)))

/-- Day number of a calendar date (days since 1970-01-01, the standard
civil-from-days algorithm); used to embed Python `date` subtraction
`(d1 - d2).days` and `strftime("%A")`. -/
def daysFromCivil (y m d : ℤ) : ℤ :=
  let y' := if m ≤ 2 then y - 1 else y
  let era := (if 0 ≤ y' then y' else y' - 399) / 400
  let yoe := y' - era * 400
  let doy := (153 * (m + (if 2 < m then -3 else 9)) + 2) / 5 + d - 1
  let doe := yoe * 365 + yoe / 4 - yoe / 100 + doy
  era * 146097 + doe - 719468

/-- Day number of a `PyDateTime`'s date. -/
def dayNumber (dt : PyDateTime) : ℤ := daysFromCivil dt.year dt.month dt.day

/-- Weekday names indexed Monday=0, as in Python `date.weekday()`. -/
def weekdayNames : List String :=
  ["Monday", "Tuesday", "Wednesday", "Thursday", "Friday", "Saturday", "Sunday"]

/-- Python `strftime("%A")`: the weekday name of a date (1970-01-01 was a
Thursday). -/
def strftimeA (dt : PyDateTime) : String :=
  weekdayNames.getD (((dayNumber dt + 3) % 7).toNat) ""

/-- Relative date token derived by `handle_time_clarification_response`
(src/main.py lines 731-743) from the original intent's date and today's
date: `"today"`, `"tomorrow"`, `"yesterday"`, or the weekday name. -/
def date_reference (today original : PyDateTime) : String :=
  if pyDate original = pyDate today then "today"
  else if dayNumber original - dayNumber today = 1 then "tomorrow"
  else if dayNumber original - dayNumber today = -1 then "yesterday"
  else strftimeA original

/-- Combined message synthesized by `handle_time_clarification_response`
(src/main.py line 745). -/
def combinedMessage (original_intent : IntentExtraction) (dateRef user_message : String) : String :=
  "I want to " ++ original_intent.activity ++ " " ++ dateRef ++ " at " ++ user_message

/-- Date-preserving correction of `handle_time_clarification_response`
(src/main.py lines 752-764): if the re-extracted datetime's calendar date
differs from the original date, keep the original date and take only the
newly extracted hour and minute (`second=0`, `microsecond=0`); otherwise
keep the re-extracted datetime. -/
def correct_updated_datetime (original updated : PyDateTime) : PyDateTime :=
  if pyDate updated ≠ pyDate original then
    { original with hour := updated.hour, minute := updated.minute,
                    second := 0, microsecond := 0 }
  else updated

/-- Successful-branch test and intent correction of
`handle_time_clarification_response` (src/main.py lines 751-764): when the
re-extracted intent has a specific time and confidence above 0.7, return
the corrected intent (with the date-preserving datetime fix); otherwise
`none` (the handler re-asks and keeps the pending entry). -/
def resolve_time_clarification (original_intent updated_intent : IntentExtraction) :
    Option IntentExtraction :=
  if updated_intent.has_specific_time = true ∧ updated_intent.confidence > mkRat 7 10 then
    some { updated_intent with
           datetime := correct_updated_datetime original_intent.datetime
                         updated_intent.datetime }
  else none

/-- Method `TelegramBot.handle_time_clarification_response` (src/main.py
lines 719-792): synthesize the combined message, re-extract an intent from
it, and on success build a fresh state carrying the corrected intent and
re-invoke the compiled workflow on it (`agent_workflow.ainvoke`, whose
entry point is `extract_intent`); on failure return `none` (re-ask, keep
the pending entry). Returns the workflow run's final state and trace. -/
def handle_time_clarification_response (c : Collaborators) (today : PyDateTime)
    (chatId : ℤ) (user_message : String) (original_intent : IntentExtraction) :
    Option (AgentState × List Step) :=
  let dateRef := date_reference today original_intent.datetime
  let combined := combinedMessage original_intent dateRef user_message
  let updated := c.extract combined
  match resolve_time_clarification original_intent updated with
  | some corrected =>
      let s0 : AgentState :=
        { user_message := combined
          telegram_chat_id := chatId
          intent := some corrected
          weather := none
          calendar_event_created := false
          response_message := ""
          needs_clarification := false }
      some (runWorkflow c s0)
  | none => none

/-- Proceed keywords of `handle_weather_clarification_response`
(src/main.py line 809). -/
def proceedKeywordSet : List String := ["1", "proceed", "yes", "continue", "anyway"]

/-- Reschedule keywords of `handle_weather_clarification_response`
(src/main.py line 821). -/
def rescheduleKeywordSet : List String := ["2", "reschedule", "different", "later", "change"]

/-- Cancel keywords of `handle_weather_clarification_response`
(src/main.py line 825). -/
def cancelKeywordSet : List String := ["3", "cancel", "no", "don\x27t", "skip"]

/-- Outcome of classifying a weather-clarification reply. -/
inductive WeatherReplyAction where
  | proceed
  | reschedule
  | cancel
  | unclear
deriving DecidableEq

/-- Reply classification of `TelegramBot.handle_weather_clarification_response`
(src/main.py lines 804-833): lower-case the reply, then test substring
containment against the proceed set first, then the reschedule set, then
the cancel set; anything else is unclear. -/
def classify_weather_reply (user_message : String) : WeatherReplyAction :=
  let msgLower := pyLower user_message
  if containsAnyKeyword msgLower proceedKeywordSet then WeatherReplyAction.proceed
  else if containsAnyKeyword msgLower rescheduleKeywordSet then WeatherReplyAction.reschedule
  else if containsAnyKeyword msgLower cancelKeywordSet then WeatherReplyAction.cancel
  else WeatherReplyAction.unclear

/-- Spec-side rendering of `routeAfterExtraction` (spec §4.1), written from
the specification's words for comparison with `should_check_weather`:
absent intent → NEEDS_CLARIFICATION; else casual conversation with
confidence ≤ 0.1 → CASUAL; else confidence > 0.5 and activity outside
the set containing "unknown" and "casual conversation" → weather query /
time clarification / weather check; else NEEDS_CLARIFICATION. -/
def routeAfterExtraction_spec (intent : Option IntentExtraction) : Route :=
  match intent with
  | none => Route.request_clarification
  | some i =>
      if i.activity = "casual conversation" ∧ i.confidence ≤ mkRat 1 10 then
        Route.casual_conversation
      else if i.confidence > mkRat 1 2
          ∧ ¬(i.activity = "unknown" ∨ i.activity = "casual conversation") then
        if i.is_weather_query then Route.weather_query
        else if i.has_specific_time = false then Route.request_time_clarification
        else Route.check_weather
      else Route.request_clarification

/-- Fixed non-rainy fallback observation substituted on weather-provider
failure (src/main.py lines 250-256). -/
def fallbackWeather : WeatherData :=
  { temperature := 25, description := "clear sky", is_rainy := false,
    humidity := 70, feels_like := some 27 }

/-- Rainy observation used in concrete runs. -/
def rainyWeather : WeatherData :=
  { temperature := 24, description := "light rain", is_rainy := true,
    humidity := 85, feels_like := some 26 }

/-- Constant collaborators used for concrete runs: the extractor always
returns `i`, the forecast always returns `w`, the calendar write always
returns `ok`. -/
def constCollaborators (i : IntentExtraction) (w : WeatherData) (ok : Bool) : Collaborators :=
  { extract := fun _ => i, forecast := fun _ _ => w, createEvent := fun _ => ok }

/-- Casual-conversation intent the extractor produces for a greeting
(activity "casual conversation", confidence 0). -/
def casualIntent : IntentExtraction :=
  { activity := "casual conversation", datetime := ⟨2025, 5, 28, 0, 0, 0, 0⟩,
    location := none, confidence := 0, is_weather_query := false,
    has_specific_time := false }

/-- Intent with activity "unknown" but high confidence and no specific
time. -/
def unknownHighConfIntent : IntentExtraction :=
  { activity := "unknown", datetime := ⟨2025, 5, 28, 0, 0, 0, 0⟩,
    location := none, confidence := mkRat 9 10, is_weather_query := false,
    has_specific_time := false }

/-- High-confidence weather-query intent. -/
def weatherQueryIntent : IntentExtraction :=
  { activity := "weather query", datetime := ⟨2025, 5, 28, 15, 0, 0, 0⟩,
    location := none, confidence := mkRat 9 10, is_weather_query := true,
    has_specific_time := true }

/-- Original scheduling intent pending a TIME clarification: date-only
2025-05-28 (midnight), no specific time. -/
def c2OriginalIntent : IntentExtraction :=
  { activity := "run", datetime := ⟨2025, 5, 28, 0, 0, 0, 0⟩,
    location := none, confidence := mkRat 9 10, is_weather_query := false,
    has_specific_time := false }

/-- Intent the extractor returns for the synthesized combined message: the
extractor reset the date to 2025-05-29 while picking up the 18:00 time. -/
def c2ReextractedIntent : IntentExtraction :=
  { activity := "run", datetime := ⟨2025, 5, 29, 18, 0, 0, 0⟩,
    location := none, confidence := mkRat 9 10, is_weather_query := false,
    has_specific_time := true }

/-- Collaborators for the TIME-clarification resolution run. -/
def c2Collaborators : Collaborators :=
  constCollaborators c2ReextractedIntent fallbackWeather true

/-- Today's date for the TIME-clarification resolution run (the original
intent's date is tomorrow). -/
def c2Today : PyDateTime := ⟨2025, 5, 27, 12, 0, 0, 0⟩

/-- Result of resolving the TIME clarification reply "6pm" against the
pending original intent. -/
def c2Result : Option (AgentState × List Step) :=
  handle_time_clarification_response c2Collaborators c2Today 1 "6pm" c2OriginalIntent

/-- Original intent for the date-preservation witness: date-only
2025-05-28. -/
def c7OriginalIntent : IntentExtraction :=
  { activity := "picnic", datetime := ⟨2025, 5, 28, 0, 0, 0, 0⟩,
    location := none, confidence := mkRat 8 10, is_weather_query := false,
    has_specific_time := false }

/-- Re-extracted intent for the date-preservation witness: 18:00 but on a
different date. -/
def c7UpdatedIntent : IntentExtraction :=
  { activity := "picnic", datetime := ⟨2025, 5, 27, 18, 0, 0, 0⟩,
    location := none, confidence := mkRat 9 10, is_weather_query := false,
    has_specific_time := true }

/-- Sample pending entry aged 601 seconds at sweep time 1000. -/
def expiredPending : PendingClarification :=
  { original_intent := c2OriginalIntent, weather := none,
    kind := PendingKind.time, timestamp := 399 }

/-- Sample pending entry aged 599 seconds at sweep time 1000. -/
def freshPending : PendingClarification :=
  { original_intent := c2OriginalIntent, weather := none,
    kind := PendingKind.time, timestamp := 401 }

/-! ### Helper lemmas -/

theorem containsSeq_iff_isInfix (pat s : List Char) :
    containsSeq pat s = true ↔ pat <:+: s := by
  induction s with
  | nil => simp [containsSeq, List.infix_nil, List.isEmpty_iff]
  | cons c rest ih =>
      rw [containsSeq, List.infix_cons_iff]
      simp [List.isPrefixOf_iff_prefix, ih]

theorem strContains_self (pat : String) : strContains pat pat = true := by
  simp only [strContains, containsSeq_iff_isInfix]
  exact List.infix_rfl

theorem strContains_append_left (a b pat : String) (h : strContains a pat = true) :
    strContains (a ++ b) pat = true := by
  simp only [strContains, containsSeq_iff_isInfix, String.data_append] at h ⊢
  exact h.trans (List.prefix_append a.data b.data).isInfix

theorem strContains_append_right (a b pat : String) (h : strContains b pat = true) :
    strContains (a ++ b) pat = true := by
  simp only [strContains, containsSeq_iff_isInfix, String.data_append] at h ⊢
  exact h.trans (List.suffix_append a.data b.data).isInfix

theorem extract_intent_node_intent (f : String → IntentExtraction) (s : AgentState) :
    (extract_intent_node f s).intent = some (f s.user_message) := rfl

theorem request_clarification_node_needs (s : AgentState) :
    (request_clarification_node s).needs_clarification = true := rfl

theorem request_clarification_node_intent (s : AgentState) :
    (request_clarification_node s).intent = s.intent := rfl

theorem request_clarification_node_weather (s : AgentState) :
    (request_clarification_node s).weather = s.weather := rfl

theorem request_time_clarification_node_needs (s : AgentState) :
    (request_time_clarification_node s).needs_clarification = true := by
  unfold request_time_clarification_node
  split <;> rfl

theorem request_time_clarification_node_intent (s : AgentState) :
    (request_time_clarification_node s).intent = s.intent := by
  unfold request_time_clarification_node
  split <;> rfl

theorem request_time_clarification_node_weather (s : AgentState) :
    (request_time_clarification_node s).weather = s.weather := by
  unfold request_time_clarification_node
  split <;> rfl

theorem casual_conversation_node_needs (s : AgentState) :
    (casual_conversation_node s).needs_clarification = s.needs_clarification := rfl

theorem casual_conversation_node_intent (s : AgentState) :
    (casual_conversation_node s).intent = s.intent := rfl

theorem check_weather_node_intent (f : PyDateTime → String → WeatherData) (s : AgentState) :
    (check_weather_node f s).intent = s.intent := by
  unfold check_weather_node
  split <;> rfl

theorem check_weather_node_weather_some (f : PyDateTime → String → WeatherData)
    (s : AgentState) (i : IntentExtraction) (h : s.intent = some i) :
    (check_weather_node f s).weather
      = some (f i.datetime (locationOrDefault i.location)) := by
  unfold check_weather_node
  rw [h]

theorem check_weather_node_needs (f : PyDateTime → String → WeatherData) (s : AgentState) :
    (check_weather_node f s).needs_clarification = s.needs_clarification := by
  unfold check_weather_node
  split <;> rfl

theorem weather_query_node_eq_some (f : PyDateTime → String → WeatherData)
    (s : AgentState) (i : IntentExtraction) (h : s.intent = some i) :
    weather_query_node f s =
      { s with
        weather := some (f i.datetime (locationOrDefault i.location)),
        response_message :=
          weatherQueryBody (locationOrDefault i.location)
              (f i.datetime (locationOrDefault i.location))
            ++ weatherAdvice (f i.datetime (locationOrDefault i.location)) } := by
  unfold weather_query_node
  rw [h]

theorem create_calendar_event_node_needs (g : IntentExtraction → Bool) (s : AgentState) :
    (create_calendar_event_node g s).needs_clarification = s.needs_clarification := by
  unfold create_calendar_event_node
  split
  · rfl
  · dsimp only
    split <;> rfl

theorem route_eq_check_weather {s : AgentState}
    (h : should_check_weather s = Route.check_weather) :
    ∃ i, s.intent = some i ∧ mkRat 1 2 < i.confidence ∧ i.has_specific_time = true
      ∧ i.is_weather_query = false := by
  rcases hs : s.intent with _ | i
  · simp only [should_check_weather, hs] at h
    exact absurd h (by decide)
  · refine ⟨i, rfl, ?_⟩
    simp only [should_check_weather, hs] at h
    split_ifs at h with h1 h2 h3 h4 <;>
      first
        | (exact absurd h (by decide))
        | (exact ⟨h2.1, by simpa using h4, by simpa using h3⟩)

theorem route_eq_request_time {s : AgentState}
    (h : should_check_weather s = Route.request_time_clarification) :
    ∃ i, s.intent = some i ∧ mkRat 1 2 < i.confidence ∧ i.has_specific_time = false := by
  rcases hs : s.intent with _ | i
  · simp only [should_check_weather, hs] at h
    exact absurd h (by decide)
  · refine ⟨i, rfl, ?_⟩
    simp only [should_check_weather, hs] at h
    split_ifs at h with h1 h2 h3 h4 <;>
      first
        | (exact absurd h (by decide))
        | (exact ⟨h2.1, h4⟩)

theorem post_route_clarification_rainy {w : WeatherData} {s : AgentState}
    (hw : s.weather = some w)
    (h : should_create_event s = PostWeatherRoute.request_clarification) :
    w.is_rainy = true := by
  simp only [should_create_event, hw] at h
  split_ifs at h with h1
  exact h1

theorem runWorkflow_casual_eq {c : Collaborators} {s : AgentState}
    (h : should_check_weather (extract_intent_node c.extract s) = Route.casual_conversation) :
    runWorkflow c s
      = (casual_conversation_node (extract_intent_node c.extract s),
         [Step.extract_intent, Step.casual_conversation]) := by
  unfold runWorkflow
  rw [h]

theorem runWorkflow_weather_query_eq {c : Collaborators} {s : AgentState}
    (h : should_check_weather (extract_intent_node c.extract s) = Route.weather_query) :
    runWorkflow c s
      = (weather_query_node c.forecast (extract_intent_node c.extract s),
         [Step.extract_intent, Step.weather_query]) := by
  unfold runWorkflow
  rw [h]

theorem runWorkflow_request_time_eq {c : Collaborators} {s : AgentState}
    (h : should_check_weather (extract_intent_node c.extract s)
        = Route.request_time_clarification) :
    runWorkflow c s
      = (request_time_clarification_node (extract_intent_node c.extract s),
         [Step.extract_intent, Step.request_time_clarification]) := by
  unfold runWorkflow
  rw [h]

theorem runWorkflow_request_clarification_eq {c : Collaborators} {s : AgentState}
    (h : should_check_weather (extract_intent_node c.extract s)
        = Route.request_clarification) :
    runWorkflow c s
      = (request_clarification_node (extract_intent_node c.extract s),
         [Step.extract_intent, Step.request_clarification]) := by
  unfold runWorkflow
  rw [h]

theorem runWorkflow_create_event_eq {c : Collaborators} {s : AgentState}
    (h1 : should_check_weather (extract_intent_node c.extract s) = Route.check_weather)
    (h2 : should_create_event
        (check_weather_node c.forecast (extract_intent_node c.extract s))
        = PostWeatherRoute.create_event) :
    runWorkflow c s
      = (create_calendar_event_node c.createEvent
           (check_weather_node c.forecast (extract_intent_node c.extract s)),
         [Step.extract_intent, Step.check_weather, Step.create_event]) := by
  unfold runWorkflow
  rw [h1, h2]

theorem runWorkflow_rainy_clarification_eq {c : Collaborators} {s : AgentState}
    (h1 : should_check_weather (extract_intent_node c.extract s) = Route.check_weather)
    (h2 : should_create_event
        (check_weather_node c.forecast (extract_intent_node c.extract s))
        = PostWeatherRoute.request_clarification) :
    runWorkflow c s
      = (request_clarification_node
           (check_weather_node c.forecast (extract_intent_node c.extract s)),
         [Step.extract_intent, Step.check_weather, Step.request_clarification]) := by
  unfold runWorkflow
  rw [h1, h2]

theorem terminal_pair (a b : Step) : terminalStep [a, b] = some b := rfl

theorem terminal_triple (a b d : Step) : terminalStep [a, b, d] = some d := rfl

theorem contextWrite_none_of_no_clarification (now : ℚ) {final : AgentState}
    (h : final.needs_clarification = false) : contextWrite now final = none := by
  simp [contextWrite, h]

theorem contextWrite_kind_time_iff (now : ℚ) (final : AgentState) :
    ((contextWrite now final).map fun p => p.kind) = some PendingKind.time
      ↔ (final.needs_clarification = true
          ∧ ∃ i, final.intent = some i ∧ mkRat 1 2 < i.confidence
              ∧ i.has_specific_time = false) := by
  unfold contextWrite
  rcases hn : final.needs_clarification
  · rw [if_neg (by simp [hn])]
    simp [hn]
  · rw [if_pos (by simp [hn])]
    rcases hi : final.intent with _ | i
    · simp [hi]
    · simp only [hi]
      by_cases h1 : i.confidence > mkRat 1 2 ∧ i.has_specific_time = false
      · rw [if_pos h1]
        simp only [Option.map_some']
        constructor
        · intro _
          exact ⟨trivial, i, rfl, h1.1, h1.2⟩
        · intro _
          trivial
      · rw [if_neg h1]
        by_cases h2 : i.confidence > mkRat 1 2 ∧ weatherIsRainy final.weather = true
        · rw [if_pos h2]
          simp only [Option.map_some']
          constructor
          · intro h
            exact absurd h (by decide)
          · rintro ⟨_, i', hi', hc', hs'⟩
            rw [Option.some.injEq] at hi'
            subst hi'
            exact absurd ⟨hc', hs'⟩ h1
        · rw [if_neg h2]
          simp only [Option.map_none']
          constructor
          · intro h
            cases h
          · rintro ⟨_, i', hi', hc', hs'⟩
            rw [Option.some.injEq] at hi'
            subst hi'
            exact absurd ⟨hc', hs'⟩ h1

theorem contextWrite_kind_weather_iff (now : ℚ) (final : AgentState) :
    ((contextWrite now final).map fun p => p.kind) = some PendingKind.weather
      ↔ (final.needs_clarification = true
          ∧ ∃ i, final.intent = some i ∧ mkRat 1 2 < i.confidence
              ∧ i.has_specific_time = true
              ∧ weatherIsRainy final.weather = true) := by
  unfold contextWrite
  rcases hn : final.needs_clarification
  · rw [if_neg (by simp [hn])]
    simp [hn]
  · rw [if_pos (by simp [hn])]
    rcases hi : final.intent with _ | i
    · simp [hi]
    · simp only [hi]
      by_cases h1 : i.confidence > mkRat 1 2 ∧ i.has_specific_time = false
      · rw [if_pos h1]
        simp only [Option.map_some']
        constructor
        · intro h
          exact absurd h (by decide)
        · rintro ⟨_, i', hi', hc', hs', hr'⟩
          rw [Option.some.injEq] at hi'
          subst hi'
          rw [h1.2] at hs'
          cases hs'
      · rw [if_neg h1]
        by_cases h2 : i.confidence > mkRat 1 2 ∧ weatherIsRainy final.weather = true
        · rw [if_pos h2]
          simp only [Option.map_some']
          constructor
          · intro _
            refine ⟨trivial, i, rfl, h2.1, ?_, h2.2⟩
            rcases hb : i.has_specific_time
            · exact absurd ⟨h2.1, hb⟩ h1
            · rfl
          · intro _
            trivial
        · rw [if_neg h2]
          simp only [Option.map_none']
          constructor
          · intro h
            cases h
          · rintro ⟨_, i', hi', hc', hs', hr'⟩
            rw [Option.some.injEq] at hi'
            subst hi'
            exact absurd ⟨hc', hr'⟩ h2

/-! ### Claim C1 -/

/-- C1 counterexample: an extracted intent with activity "casual
conversation" and confidence 0 satisfies confidence ≤ 0.5, yet the fresh
workflow run terminates in the casual-conversation step with
needsClarification = false — refuting the claim that every intent with
confidence ≤ 0.5 or activity "unknown" terminates in a clarification
state with needsClarification = true. -/
theorem c1_casual_counterexample :
    casualIntent.confidence ≤ mkRat 1 2
    ∧ (freshRun (constCollaborators casualIntent fallbackWeather true) "hello" 1).1.needs_clarification
        = false
    ∧ terminalStep (freshRun (constCollaborators casualIntent fallbackWeather true) "hello" 1).2
        = some Step.casual_conversation := by
  refine ⟨by decide, by decide, by decide⟩

/-- C1 (amended): for every extracted intent with confidence ≤ 0.5 or
activity "unknown" — except casual-conversation intents with confidence
≤ 0.1, which terminate in the casual step with needsClarification = false —
the fresh workflow run terminates in the clarification step with
needsClarification = true. -/
theorem c1_low_confidence_clarifies (c : Collaborators) (msg : String) (chatId : ℤ)
    (h1 : (c.extract msg).confidence ≤ mkRat 1 2 ∨ (c.extract msg).activity = "unknown")
    (h2 : ¬((c.extract msg).activity = "casual conversation"
        ∧ (c.extract msg).confidence ≤ mkRat 1 10)) :
    (freshRun c msg chatId).1.needs_clarification = true
    ∧ terminalStep (freshRun c msg chatId).2 = some Step.request_clarification := by
  have hint : (extract_intent_node c.extract (initialState msg chatId)).intent
      = some (c.extract msg) := rfl
  have hroute : should_check_weather (extract_intent_node c.extract (initialState msg chatId))
      = Route.request_clarification := by
    have hB : ¬((c.extract msg).confidence > mkRat 1 2 ∧ (c.extract msg).activity ≠ "unknown"
        ∧ (c.extract msg).activity ≠ "casual conversation") := by
      rintro ⟨hgt, hu, hcc⟩
      rcases h1 with h1 | h1
      · exact absurd hgt (not_lt.mpr h1)
      · exact hu h1
    simp only [should_check_weather, hint]
    rw [if_neg h2, if_neg hB]
  unfold freshRun
  rw [runWorkflow_request_clarification_eq hroute]
  exact ⟨rfl, rfl⟩

/-- C1 witness: the amended theorem applied to a concrete extractor that
returns an intent with activity "unknown" and confidence 0.9. -/
theorem c1_low_confidence_clarifies_witness :
    (freshRun (constCollaborators unknownHighConfIntent fallbackWeather true) "what" 7).1.needs_clarification
        = true
    ∧ terminalStep (freshRun (constCollaborators unknownHighConfIntent fallbackWeather true) "what" 7).2
        = some Step.request_clarification :=
  c1_low_confidence_clarifies (constCollaborators unknownHighConfIntent fallbackWeather true)
    "what" 7 (Or.inr (by decide)) (by decide)

/-! ### Claim C2 -/

/-- C2 (code bug, evaluated at a failing input): the resolver computes the
date-corrected intent (datetime 2025-05-28 18:00, third conjunct) and puts
it in the initial state, but the re-invoked workflow starts at its entry
point EXTRACT_INTENT — the trace begins with extract_intent, not at
CHECK_WEATHER — so the run re-extracts from the combined message and the
final state carries the freshly re-extracted intent with datetime
2025-05-29 18:00 (second and fourth conjuncts), not the corrected one. -/
theorem c2_reentry_uses_reextracted_intent :
    (c2Result.map fun r => r.2)
        = some [Step.extract_intent, Step.check_weather, Step.create_event]
    ∧ (c2Result.map fun r => r.1.intent) = some (some c2ReextractedIntent)
    ∧ resolve_time_clarification c2OriginalIntent c2ReextractedIntent
        = some { c2ReextractedIntent with datetime := ⟨2025, 5, 28, 18, 0, 0, 0⟩ }
    ∧ c2ReextractedIntent.datetime = ⟨2025, 5, 29, 18, 0, 0, 0⟩ := by
  refine ⟨by decide, by decide, by decide, by decide⟩

/-! ### Claim C3 -/

/-- C3 counterexample: with an extracted intent of activity "unknown",
confidence 0.9 and no specific time, the fresh run terminates in the
generic clarification step (not TIME_CLARIFICATION), yet the handler
stores a TIME pending clarification — refuting "a TIME pending
clarification is stored iff the run's terminal step was
TIME_CLARIFICATION". -/
theorem c3_time_stored_without_time_terminal :
    terminalStep (freshRun (constCollaborators unknownHighConfIntent fallbackWeather true) "hm" 3).2
        = some Step.request_clarification
    ∧ ((contextWrite 0 (freshRun (constCollaborators unknownHighConfIntent fallbackWeather true) "hm" 3).1).map
          fun p => p.kind)
        = some PendingKind.time := by
  refine ⟨by decide, by decide⟩

/-- C3 (amended): after a fresh workflow run, a TIME pending clarification
is stored iff the terminal step was TIME_CLARIFICATION or the terminal
step was the clarification step with a final intent of confidence > 0.5
and no specific time; a WEATHER pending clarification is stored iff the
run took the post-weather branch into the clarification step with rainy
weather; any run ending in create_event, weather_query or
casual_conversation stores nothing. -/
theorem c3_pending_write_policy (c : Collaborators) (msg : String) (chatId : ℤ) (now : ℚ) :
    (((contextWrite now (freshRun c msg chatId).1).map fun p => p.kind) = some PendingKind.time
      ↔ (terminalStep (freshRun c msg chatId).2 = some Step.request_time_clarification
          ∨ (terminalStep (freshRun c msg chatId).2 = some Step.request_clarification
              ∧ ∃ i, (freshRun c msg chatId).1.intent = some i
                  ∧ mkRat 1 2 < i.confidence ∧ i.has_specific_time = false)))
    ∧ (((contextWrite now (freshRun c msg chatId).1).map fun p => p.kind) = some PendingKind.weather
      ↔ ((freshRun c msg chatId).2
            = [Step.extract_intent, Step.check_weather, Step.request_clarification]
          ∧ weatherIsRainy (freshRun c msg chatId).1.weather = true))
    ∧ ((terminalStep (freshRun c msg chatId).2 = some Step.create_event
        ∨ terminalStep (freshRun c msg chatId).2 = some Step.weather_query
        ∨ terminalStep (freshRun c msg chatId).2 = some Step.casual_conversation) →
        contextWrite now (freshRun c msg chatId).1 = none) := by
  unfold freshRun
  rcases hr : should_check_weather (extract_intent_node c.extract (initialState msg chatId))
    with _ | _ | _ | _ | _
  case check_weather =>
    obtain ⟨i, hi, hconf, hspec, hwq⟩ := route_eq_check_weather hr
    rcases hp : should_create_event
        (check_weather_node c.forecast (extract_intent_node c.extract (initialState msg chatId)))
      with _ | _
    case create_event =>
      rw [runWorkflow_create_event_eq hr hp]
      have hneeds : (create_calendar_event_node c.createEvent
          (check_weather_node c.forecast
            (extract_intent_node c.extract (initialState msg chatId)))).needs_clarification
          = false := by
        rw [create_calendar_event_node_needs, check_weather_node_needs]
        rfl
      have hnone := contextWrite_none_of_no_clarification now hneeds
      refine ⟨?_, ?_, fun _ => hnone⟩
      · rw [hnone]
        simp [terminal_triple]
      · rw [hnone]
        simp [terminal_triple]
    case request_clarification =>
      have hw : (check_weather_node c.forecast
            (extract_intent_node c.extract (initialState msg chatId))).weather
          = some (c.forecast i.datetime (locationOrDefault i.location)) :=
        check_weather_node_weather_some _ _ _ hi
      have hrain := post_route_clarification_rainy hw hp
      rw [runWorkflow_rainy_clarification_eq hr hp]
      have hfi : (request_clarification_node (check_weather_node c.forecast
            (extract_intent_node c.extract (initialState msg chatId)))).intent = some i := by
        rw [request_clarification_node_intent, check_weather_node_intent]
        exact hi
      have hfw : weatherIsRainy (request_clarification_node (check_weather_node c.forecast
            (extract_intent_node c.extract (initialState msg chatId)))).weather = true := by
        rw [request_clarification_node_weather, hw]
        exact hrain
      refine ⟨?_, ?_, ?_⟩
      · rw [contextWrite_kind_time_iff]
        constructor
        · rintro ⟨_, i', hi', _, hs'⟩
          rw [hfi, Option.some.injEq] at hi'
          subst hi'
          rw [hspec] at hs'
          cases hs'
        · rintro (ht | ⟨_, i', hi', _, hs'⟩)
          · rw [terminal_triple] at ht
            cases ht
          · rw [hfi, Option.some.injEq] at hi'
            subst hi'
            rw [hspec] at hs'
            cases hs'
      · rw [contextWrite_kind_weather_iff]
        constructor
        · intro _
          exact ⟨rfl, hfw⟩
        · intro _
          exact ⟨request_clarification_node_needs _, i, hfi, hconf, hspec, hfw⟩
      · rintro (ht | ht | ht) <;> (rw [terminal_triple] at ht; cases ht)
  case weather_query =>
    rw [runWorkflow_weather_query_eq hr]
    have hfe := weather_query_node_eq_some c.forecast
      (extract_intent_node c.extract (initialState msg chatId)) (c.extract msg) rfl
    have hneeds : (weather_query_node c.forecast
        (extract_intent_node c.extract (initialState msg chatId))).needs_clarification
        = false := by
      rw [hfe]
      rfl
    have hnone := contextWrite_none_of_no_clarification now hneeds
    refine ⟨?_, ?_, fun _ => hnone⟩
    · rw [hnone]
      simp [terminal_pair]
    · rw [hnone]
      simp [terminal_pair]
  case request_time_clarification =>
    obtain ⟨i, hi, hconf, hspec⟩ := route_eq_request_time hr
    rw [runWorkflow_request_time_eq hr]
    have hfi : (request_time_clarification_node
        (extract_intent_node c.extract (initialState msg chatId))).intent = some i := by
      rw [request_time_clarification_node_intent]
      exact hi
    refine ⟨?_, ?_, ?_⟩
    · rw [contextWrite_kind_time_iff]
      constructor
      · intro _
        exact Or.inl (terminal_pair _ _)
      · intro _
        exact ⟨request_time_clarification_node_needs _, i, hfi, hconf, hspec⟩
    · rw [contextWrite_kind_weather_iff]
      constructor
      · rintro ⟨_, i', hi', _, hs', _⟩
        rw [hfi, Option.some.injEq] at hi'
        subst hi'
        rw [hspec] at hs'
        cases hs'
      · rintro ⟨htr, _⟩
        cases htr
    · rintro (ht | ht | ht) <;> (rw [terminal_pair] at ht; cases ht)
  case request_clarification =>
    rw [runWorkflow_request_clarification_eq hr]
    have hfi : (request_clarification_node
        (extract_intent_node c.extract (initialState msg chatId))).intent
        = some (c.extract msg) := by
      rw [request_clarification_node_intent]
      rfl
    have hfw : weatherIsRainy (request_clarification_node
        (extract_intent_node c.extract (initialState msg chatId))).weather = false := by
      rw [request_clarification_node_weather]
      rfl
    refine ⟨?_, ?_, ?_⟩
    · rw [contextWrite_kind_time_iff]
      constructor
      · rintro ⟨_, hex⟩
        exact Or.inr ⟨terminal_pair _ _, hex⟩
      · rintro (ht | ⟨_, hex⟩)
        · rw [terminal_pair] at ht
          cases ht
        · exact ⟨request_clarification_node_needs _, hex⟩
    · rw [contextWrite_kind_weather_iff]
      constructor
      · rintro ⟨_, i', _, _, _, hr'⟩
        rw [hfw] at hr'
        cases hr'
      · rintro ⟨htr, _⟩
        cases htr
    · rintro (ht | ht | ht) <;> (rw [terminal_pair] at ht; cases ht)
  case casual_conversation =>
    rw [runWorkflow_casual_eq hr]
    have hneeds : (casual_conversation_node
        (extract_intent_node c.extract (initialState msg chatId))).needs_clarification
        = false := by
      rw [casual_conversation_node_needs]
      rfl
    have hnone := contextWrite_none_of_no_clarification now hneeds
    refine ⟨?_, ?_, fun _ => hnone⟩
    · rw [hnone]
      simp [terminal_pair]
    · rw [hnone]
      simp [terminal_pair]

/-- C3 witness: the amended theorem applied to a concrete rainy run — the
post-weather clarification stores a WEATHER pending entry. -/
theorem c3_pending_write_policy_witness :
    ((contextWrite 0 (freshRun (constCollaborators c2ReextractedIntent rainyWeather true) "x" 5).1).map
        fun p => p.kind) = some PendingKind.weather :=
  (c3_pending_write_policy (constCollaborators c2ReextractedIntent rainyWeather true)
      "x" 5 0).2.1.mpr ⟨by decide, by decide⟩

/-! ### Claim C4 -/

/-- C4: the post-extraction router `should_check_weather` is a total
function of the state's intent and computes exactly the decision table of
`routeAfterExtraction` from the spec (rendered as
`routeAfterExtraction_spec`): absent intent → clarification; casual
conversation with confidence ≤ 0.1 → casual; confidence > 0.5 with
activity outside the two reserved names → weather query / time
clarification / weather check; otherwise clarification. -/
theorem c4_route_after_extraction (s : AgentState) :
    should_check_weather s = routeAfterExtraction_spec s.intent := by
  rcases hs : s.intent with _ | i
  · simp [should_check_weather, routeAfterExtraction_spec, hs]
  · simp only [should_check_weather, routeAfterExtraction_spec, hs]
    split_ifs <;> first | rfl | tauto

/-! ### Claim C5 -/

/-- C5: the post-weather router `should_create_event` returns create_event
iff the state's weather is present with is_rainy = false, and a state with
absent weather always routes to the clarification branch, never to
create_event. -/
theorem c5_route_after_weather (s : AgentState) :
    (should_create_event s = PostWeatherRoute.create_event
      ↔ ∃ w, s.weather = some w ∧ w.is_rainy = false)
    ∧ (s.weather = none
        → should_create_event s = PostWeatherRoute.request_clarification) := by
  rcases hw : s.weather with _ | w
  · refine ⟨?_, fun _ => ?_⟩
    · simp [should_create_event, hw]
    · simp [should_create_event, hw]
  · refine ⟨?_, ?_⟩
    · rcases hb : w.is_rainy
      · simp [should_create_event, hw, hb]
      · simp [should_create_event, hw, hb]
    · intro h
      cases h

/-- C5 witness: a state with no weather routes to the clarification
branch. -/
theorem c5_route_after_weather_witness :
    should_create_event (initialState "m" 0) = PostWeatherRoute.request_clarification :=
  (c5_route_after_weather (initialState "m" 0)).2 rfl

/-! ### Claim C6 -/

/-- C6: for every extracted intent with is_weather_query = true, the
workflow run never reaches the create_event node — the only node that
calls the calendar collaborator — so the calendar is never invoked. -/
theorem c6_weather_query_never_calendar (c : Collaborators) (s : AgentState)
    (h : (c.extract s.user_message).is_weather_query = true) :
    Step.create_event ∉ (runWorkflow c s).2 := by
  have hroute : should_check_weather (extract_intent_node c.extract s)
      ≠ Route.check_weather := by
    intro hr
    obtain ⟨i, hi, _, _, hwq⟩ := route_eq_check_weather hr
    have hee : (extract_intent_node c.extract s).intent
        = some (c.extract s.user_message) := rfl
    rw [hee, Option.some.injEq] at hi
    rw [← hi, h] at hwq
    cases hwq
  rcases hr : should_check_weather (extract_intent_node c.extract s)
    with _ | _ | _ | _ | _
  case check_weather => exact absurd hr hroute
  case weather_query =>
    rw [runWorkflow_weather_query_eq hr]
    simp
  case request_time_clarification =>
    rw [runWorkflow_request_time_eq hr]
    simp
  case request_clarification =>
    rw [runWorkflow_request_clarification_eq hr]
    simp
  case casual_conversation =>
    rw [runWorkflow_casual_eq hr]
    simp

/-- C6 witness: a concrete weather-query run never reaches create_event. -/
theorem c6_weather_query_never_calendar_witness :
    Step.create_event ∉ (runWorkflow
      (constCollaborators weatherQueryIntent fallbackWeather true)
      (initialState "weather please" 2)).2 :=
  c6_weather_query_never_calendar
    (constCollaborators weatherQueryIntent fallbackWeather true)
    (initialState "weather please" 2) (by decide)

/-! ### Claim C7 -/

/-- C7: in TIME clarification resolution, when the re-extracted intent has
a specific time, confidence above 0.7, and a calendar date different from
the original intent's date, the corrected intent's datetime is the
original calendar date combined with the re-extracted hour and minute,
with seconds and microseconds zero. -/
theorem c7_date_preservation (orig upd : IntentExtraction)
    (h1 : upd.has_specific_time = true) (h2 : upd.confidence > mkRat 7 10)
    (h3 : pyDate upd.datetime ≠ pyDate orig.datetime) :
    resolve_time_clarification orig upd
      = some { upd with datetime :=
          { year := orig.datetime.year, month := orig.datetime.month,
            day := orig.datetime.day, hour := upd.datetime.hour,
            minute := upd.datetime.minute, second := 0, microsecond := 0 } } := by
  unfold resolve_time_clarification correct_updated_datetime
  rw [if_pos ⟨h1, h2⟩, if_pos h3]

/-- C7 witness: original date-only 2025-05-28 plus a reply extracting
18:00 on a different date yields the corrected datetime 2025-05-28
18:00. -/
theorem c7_date_preservation_witness :
    resolve_time_clarification c7OriginalIntent c7UpdatedIntent
      = some { c7UpdatedIntent with datetime := ⟨2025, 5, 28, 18, 0, 0, 0⟩ } :=
  c7_date_preservation c7OriginalIntent c7UpdatedIntent (by decide) (by decide) (by decide)

/-! ### Claim C8 -/

/-- C8: the expiry sweep removes exactly the entries whose age exceeds 600
seconds — membership after the sweep is membership before with age not
above 600 — and concretely an entry aged 601 seconds is gone while one
aged 599 seconds remains. -/
theorem c8_ttl_sweep_exact :
    (∀ (now : ℚ) (ctxs : List (ℤ × PendingClarification)) (e : ℤ × PendingClarification),
        e ∈ cleanup_old_contexts now ctxs ↔ e ∈ ctxs ∧ ¬(now - e.2.timestamp > 600))
    ∧ ((1, expiredPending) ∉ cleanup_old_contexts 1000 [(1, expiredPending)])
    ∧ ((1, freshPending) ∈ cleanup_old_contexts 1000 [(1, freshPending)]) := by
  have main : ∀ (now : ℚ) (ctxs : List (ℤ × PendingClarification))
      (e : ℤ × PendingClarification),
      e ∈ cleanup_old_contexts now ctxs ↔ e ∈ ctxs ∧ ¬(now - e.2.timestamp > 600) := by
    intro now ctxs e
    simp [cleanup_old_contexts, List.mem_filter]
  refine ⟨main, ?_, ?_⟩
  · intro hmem
    have h2 := ((main 1000 [(1, expiredPending)] (1, expiredPending)).mp hmem).2
    norm_num [expiredPending] at h2
  · exact (main 1000 [(1, freshPending)] (1, freshPending)).mpr
      ⟨by simp, by norm_num [freshPending]⟩

/-- C8 witness: the sweep characterization applied at a concrete store and
entry. -/
theorem c8_ttl_sweep_exact_witness :
    (1, freshPending) ∈ cleanup_old_contexts 1000 [(1, freshPending)]
      ↔ (1, freshPending) ∈ [((1 : ℤ), freshPending)]
          ∧ ¬((1000 : ℚ) - ((1 : ℤ), freshPending).2.timestamp > 600) :=
  c8_ttl_sweep_exact.1 1000 [(1, freshPending)] (1, freshPending)

/-! ### Claim C9 helpers -/

theorem weatherQueryBody_contains_temperature (loc : String) (w : WeatherData) :
    strContains (weatherQueryBody loc w) "**Temperature**: " = true := by
  unfold weatherQueryBody
  apply strContains_append_left
  apply strContains_append_left
  apply strContains_append_left
  apply strContains_append_left
  apply strContains_append_left
  apply strContains_append_left
  apply strContains_append_left
  apply strContains_append_left
  apply strContains_append_left
  apply strContains_append_left
  apply strContains_append_right
  exact strContains_self _

theorem weatherQueryBody_contains_conditions (loc : String) (w : WeatherData) :
    strContains (weatherQueryBody loc w) "**Conditions**: " = true := by
  unfold weatherQueryBody
  apply strContains_append_left
  apply strContains_append_left
  apply strContains_append_left
  apply strContains_append_left
  apply strContains_append_left
  apply strContains_append_right
  exact strContains_self _

theorem weatherQueryBody_contains_humidity (loc : String) (w : WeatherData) :
    strContains (weatherQueryBody loc w) "**Humidity**: " = true := by
  unfold weatherQueryBody
  apply strContains_append_left
  apply strContains_append_left
  apply strContains_append_right
  exact strContains_self _

theorem weatherAdvice_count_one (w : WeatherData) :
    [umbrellaAdvice, heatAdvice, coldAdvice, neutralAdvice].count (weatherAdvice w) = 1 := by
  unfold weatherAdvice
  split_ifs <;> decide

theorem weatherAdvice_rainy {w : WeatherData} (h : w.is_rainy = true) :
    weatherAdvice w = umbrellaAdvice := by
  unfold weatherAdvice
  rw [if_pos h]

theorem weatherAdvice_hot {w : WeatherData} (h : w.is_rainy = false)
    (ht : 30 < w.temperature) : weatherAdvice w = heatAdvice := by
  unfold weatherAdvice
  rw [if_neg (by simp [h]), if_pos ht]

theorem weatherAdvice_cold {w : WeatherData} (h : w.is_rainy = false)
    (ht : w.temperature < 20) : weatherAdvice w = coldAdvice := by
  unfold weatherAdvice
  rw [if_neg (by simp [h]), if_neg (by linarith), if_pos ht]

theorem weatherAdvice_neutral {w : WeatherData} (h : w.is_rainy = false)
    (h20 : 20 ≤ w.temperature) (h30 : w.temperature ≤ 30) :
    weatherAdvice w = neutralAdvice := by
  unfold weatherAdvice
  rw [if_neg (by simp [h]), if_neg (not_lt.mpr h30), if_neg (not_lt.mpr h20)]

/-! ### Claim C9 -/

/-- C9: every weather-query run responds with the temperature, conditions
and humidity lines and ends in exactly one advisory line selected by the
fixed thresholds — rainy → umbrella; else strictly above 30° → heat; else
strictly below 20° → cold; else (including exactly 30° and exactly 20°)
the neutral advisory — and the run keeps needsClarification false and
writes no pending clarification. -/
theorem c9_weather_query_response (c : Collaborators) (msg : String) (chatId : ℤ) (now : ℚ)
    (h : should_check_weather (extract_intent_node c.extract (initialState msg chatId))
        = Route.weather_query) :
    ∃ w, (freshRun c msg chatId).1.weather = some w
      ∧ strContains (freshRun c msg chatId).1.response_message "**Temperature**: " = true
      ∧ strContains (freshRun c msg chatId).1.response_message "**Conditions**: " = true
      ∧ strContains (freshRun c msg chatId).1.response_message "**Humidity**: " = true
      ∧ (∃ body, (freshRun c msg chatId).1.response_message = body ++ weatherAdvice w)
      ∧ [umbrellaAdvice, heatAdvice, coldAdvice, neutralAdvice].count (weatherAdvice w) = 1
      ∧ (w.is_rainy = true → weatherAdvice w = umbrellaAdvice)
      ∧ (w.is_rainy = false → 30 < w.temperature → weatherAdvice w = heatAdvice)
      ∧ (w.is_rainy = false → w.temperature < 20 → weatherAdvice w = coldAdvice)
      ∧ (w.is_rainy = false → 20 ≤ w.temperature → w.temperature ≤ 30 →
          weatherAdvice w = neutralAdvice)
      ∧ (freshRun c msg chatId).1.needs_clarification = false
      ∧ contextWrite now (freshRun c msg chatId).1 = none := by
  unfold freshRun
  rw [runWorkflow_weather_query_eq h]
  have hfe := weather_query_node_eq_some c.forecast
    (extract_intent_node c.extract (initialState msg chatId)) (c.extract msg) rfl
  rw [hfe]
  refine ⟨c.forecast (c.extract msg).datetime (locationOrDefault (c.extract msg).location),
    rfl, ?_, ?_, ?_,
    ⟨weatherQueryBody (locationOrDefault (c.extract msg).location)
      (c.forecast (c.extract msg).datetime (locationOrDefault (c.extract msg).location)), rfl⟩,
    weatherAdvice_count_one _,
    fun hr => weatherAdvice_rainy hr,
    fun hr ht => weatherAdvice_hot hr ht,
    fun hr ht => weatherAdvice_cold hr ht,
    fun hr h20 h30 => weatherAdvice_neutral hr h20 h30,
    rfl,
    contextWrite_none_of_no_clarification now rfl⟩
  · exact strContains_append_left _ _ _ (weatherQueryBody_contains_temperature _ _)
  · exact strContains_append_left _ _ _ (weatherQueryBody_contains_conditions _ _)
  · exact strContains_append_left _ _ _ (weatherQueryBody_contains_humidity _ _)

/-- C9 witness: a concrete weather-query run keeps needsClarification
false. -/
theorem c9_weather_query_response_witness :
    (freshRun (constCollaborators weatherQueryIntent fallbackWeather true) "weather" 4).1.needs_clarification
      = false := by
  obtain ⟨w, -, -, -, -, -, -, -, -, -, -, hn, -⟩ :=
    c9_weather_query_response (constCollaborators weatherQueryIntent fallbackWeather true)
      "weather" 4 0 (by decide)
  exact hn

/-! ### Claim C10 -/

/-- C10: weather-clarification replies are classified by lower-cased
substring containment, testing the proceed keyword set first, then
reschedule, then cancel, with anything else unclear; a reply containing
keywords of several sets is classified by the earliest set ("Yes, cancel
it" contains both "yes" and "cancel" and is classified proceed), and a
keyword inside a longer word still matches ("I know" contains "no" and is
classified cancel). -/
theorem c10_weather_reply_priority (msg : String) :
    (containsAnyKeyword (pyLower msg) proceedKeywordSet = true →
        classify_weather_reply msg = WeatherReplyAction.proceed)
    ∧ (containsAnyKeyword (pyLower msg) proceedKeywordSet = false →
        containsAnyKeyword (pyLower msg) rescheduleKeywordSet = true →
        classify_weather_reply msg = WeatherReplyAction.reschedule)
    ∧ (containsAnyKeyword (pyLower msg) proceedKeywordSet = false →
        containsAnyKeyword (pyLower msg) rescheduleKeywordSet = false →
        containsAnyKeyword (pyLower msg) cancelKeywordSet = true →
        classify_weather_reply msg = WeatherReplyAction.cancel)
    ∧ (containsAnyKeyword (pyLower msg) proceedKeywordSet = false →
        containsAnyKeyword (pyLower msg) rescheduleKeywordSet = false →
        containsAnyKeyword (pyLower msg) cancelKeywordSet = false →
        classify_weather_reply msg = WeatherReplyAction.unclear)
    ∧ classify_weather_reply "Yes, cancel it" = WeatherReplyAction.proceed
    ∧ classify_weather_reply "I know" = WeatherReplyAction.cancel := by
  refine ⟨?_, ?_, ?_, ?_, by decide, by decide⟩
  · intro hp
    simp only [classify_weather_reply]
    rw [if_pos hp]
  · intro hp hr
    simp only [classify_weather_reply]
    rw [if_neg (by simp [hp]), if_pos hr]
  · intro hp hr hc
    simp only [classify_weather_reply]
    rw [if_neg (by simp [hp]), if_neg (by simp [hr]), if_pos hc]
  · intro hp hr hc
    simp only [classify_weather_reply]
    rw [if_neg (by simp [hp]), if_neg (by simp [hr]), if_neg (by simp [hc])]

/-- C10 witness: the classification theorem applied to the reply
"proceed". -/
theorem c10_weather_reply_priority_witness :
    classify_weather_reply "proceed" = WeatherReplyAction.proceed :=
  (c10_weather_reply_priority "proceed").1 (by decide)

end WeatherAgent
